import Mathlib

/-!
Verification of the Eye_Tracker gaze-calibration core (src/main.py).

The Python code is embedded shallowly:
  * Python floats are modelled as rationals (`ℚ`); the arithmetic the spec
    talks about (midpoints, ratios, averages) is exact.
  * The mutable fields of the `GazeTracker` object that the mapping code
    touches (`calibration_data`, `last_positions`, `max_positions`, screen
    size) become an explicit `TrackerState` threaded through the functions.
  * Python raises `ZeroDivisionError` on division by zero; fallible code is
    embedded as `Except PyError`.  The error value produced on the degenerate
    calibration path is therefore `PyError.zeroDivision`; the constructor
    `PyError.degenerateCalibration` stands for the dedicated error condition
    the specification asks for, which lets us state whether the code ever
    produces it.
-/

/-- Error values a `GazeTracker` operation can surface.  `zeroDivision`
models Python's built-in `ZeroDivisionError`; `degenerateCalibration` models
a dedicated "uncalibrated axis" condition.  The embedded code only ever
produces `zeroDivision`. -/
inductive PyError where
  | zeroDivision
  | degenerateCalibration
  deriving DecidableEq, Repr

/-- The four-field calibration store `self.calibration_data`
(`{"top": ..., "left": ..., "right": ..., "bottom": ...}`). -/
@[ext]
structure CalibrationData where
  top : ℚ
  left : ℚ
  right : ℚ
  bottom : ℚ
  deriving DecidableEq, Repr

/-- The tracker state read and written by `get_gaze_position`. -/
@[ext]
structure TrackerState where
  calibration_data : CalibrationData
  max_positions : ℕ
  last_positions : List (ℚ × ℚ)
  SCREEN_WIDTH : ℚ
  SCREEN_HEIGHT : ℚ
  deriving DecidableEq, Repr

instance {ε α : Type} [DecidableEq ε] [DecidableEq α] : DecidableEq (Except ε α)
  | .error e, .error f =>
    if h : e = f then isTrue (by rw [h]) else isFalse (by simp [h])
  | .error _, .ok _ => isFalse (by simp)
  | .ok _, .error _ => isFalse (by simp)
  | .ok a, .ok b =>
    if h : a = b then isTrue (by rw [h]) else isFalse (by simp [h])

/-- Python's list slice `l[-k:]` for a nonnegative `k`:
`l[-0:]` is the whole list, and for `k ≥ 1` it is the last
`min k l.length` elements. -/
def pySliceLast (l : List α) (k : ℕ) : List α :=
  if k = 0 then l else l.drop (l.length - k)

/-- Lines 148 and 152-153 of src/main.py: the raw horizontal ratio is first
clamped by `max(right, min(horizontal_ratio, left))` and then normalized as
`1 - (horizontal_ratio - right) / (left - right)`. -/
def normalized_horizontal (c : CalibrationData) (horizontal_ratio : ℚ) : ℚ :=
  1 - (max c.right (min horizontal_ratio c.left) - c.right) / (c.left - c.right)

/-- Lines 149 and 154-155 of src/main.py: the raw vertical ratio is first
clamped by `max(top, min(vertical_ratio, bottom))` and then normalized as
`(vertical_ratio - top) / (bottom - top)`. -/
def normalized_vertical (c : CalibrationData) (vertical_ratio : ℚ) : ℚ :=
  (max c.top (min vertical_ratio c.bottom) - c.top) / (c.bottom - c.top)

/-- Lines 158-159 of src/main.py: the normalized pair scaled by the screen
dimensions, the `(x, y)` appended to the history. -/
def mapped_point (s : TrackerState) (horizontal_ratio vertical_ratio : ℚ) : ℚ × ℚ :=
  (normalized_horizontal s.calibration_data horizontal_ratio * s.SCREEN_WIDTH,
   normalized_vertical s.calibration_data vertical_ratio * s.SCREEN_HEIGHT)

/-- Lines 161-163 of src/main.py: the new point is appended and the history
replaced by the slice `self.last_positions[-self.max_positions:]`. -/
def updated_positions (s : TrackerState) (horizontal_ratio vertical_ratio : ℚ) :
    List (ℚ × ℚ) :=
  pySliceLast (s.last_positions ++ [mapped_point s horizontal_ratio vertical_ratio])
    s.max_positions

/-- Embedding of `GazeTracker.get_gaze_position` (src/main.py lines 132-171).
Clamps the raw ratios into the calibrated range, normalizes them, scales to
screen coordinates, appends to `last_positions`, keeps the slice
`[-max_positions:]`, and returns the component sums divided by
`max_positions` together with the normalized pair.  The three divisions the
source performs raise `ZeroDivisionError` in Python when their denominator
is zero; division on `ℚ` is total, so those conditions are tested up front
and mapped to `.error .zeroDivision`, in the order Python would raise
(horizontal span at line 152, vertical span at line 154, `max_positions` at
line 171).  On error the returned value carries no state; in Python the
first two exceptions fire before `last_positions` is mutated, while the
`max_positions = 0` one fires after — no claim reaches that path through a
success hypothesis. -/
def get_gaze_position (s : TrackerState) (horizontal_ratio vertical_ratio : ℚ) :
    Except PyError (TrackerState × ℚ × ℚ × (ℚ × ℚ)) :=
  if s.calibration_data.left - s.calibration_data.right = 0 then
    .error .zeroDivision
  else if s.calibration_data.bottom - s.calibration_data.top = 0 then
    .error .zeroDivision
  else if s.max_positions = 0 then
    .error .zeroDivision
  else
    .ok ({ s with last_positions := updated_positions s horizontal_ratio vertical_ratio },
         (updated_positions s horizontal_ratio vertical_ratio).foldl
           (fun acc p => acc + p.1) 0 / (s.max_positions : ℚ),
         (updated_positions s horizontal_ratio vertical_ratio).foldl
           (fun acc p => acc + p.2) 0 / (s.max_positions : ℚ),
         (normalized_horizontal s.calibration_data horizontal_ratio,
          normalized_vertical s.calibration_data vertical_ratio))

/-- Embedding of `GazeTracker.smooth_calibration` (src/main.py lines 173-186).
Note that in the source `horizontal_delta = vertical_middle * 0.030`: the
horizontal delta is derived from the vertical midpoint. -/
def smooth_calibration (c : CalibrationData) : CalibrationData :=
  let vertical_middle := (c.top + c.bottom) / 2
  let vertical_delta := vertical_middle * 0.020
  let horizontal_middle := (c.left + c.right) / 2
  let horizontal_delta := vertical_middle * 0.030
  { top := vertical_middle - vertical_delta
    bottom := vertical_middle + vertical_delta
    right := horizontal_middle - horizontal_delta
    left := horizontal_middle + horizontal_delta }

/-- State of the bubble-game loop in `spawn_random_bubbles`
(src/main.py lines 233-309): the tracker it reads and writes through
`get_gaze_position`, the remaining-bubble counter `bubbles_left`, the
current bubble position (Python keeps `None` when no bubble is active),
and the `gaze_on_bubble` flag. -/
@[ext]
structure BubbleGameState where
  tracker : TrackerState
  bubbles_left : ℕ
  bubble_position : Option (ℚ × ℚ)
  gaze_on_bubble : Bool
  deriving DecidableEq, Repr

/-- What one frame of the bubble-game loop reads from the outside world:
the gaze library's blink flag and pupil coordinates (absent when detection
fails), and the random position used when a new bubble must be spawned. -/
structure FrameInput where
  is_blinking : Bool
  pupil_left_coords : Option (ℚ × ℚ)
  pupil_right_coords : Option (ℚ × ℚ)
  rand_bubble : ℚ × ℚ
  deriving DecidableEq, Repr

/-- One iteration of the `while bubbles_left > 0` body of
`spawn_random_bubbles` (src/main.py lines 247-309).  A missing bubble is
spawned at the frame's random position; a hit is registered when
`(gaze_on_bubble and is_blinking) or (gaze_on_bubble and pupil_left_coords
is None)`; otherwise a frame missing either pupil is skipped, and a full
frame maps the averaged pupil coordinates through `get_gaze_position` and
recomputes `gaze_on_bubble`.  The source compares `sqrt(dx² + dy²) ≤ 50`;
it is encoded as the equivalent `dx² + dy² ≤ 50²` to stay in `ℚ`. -/
def spawn_random_bubbles_step (g : BubbleGameState) (f : FrameInput) :
    Except PyError BubbleGameState :=
  let bubble_position := g.bubble_position.getD f.rand_bubble
  if (g.gaze_on_bubble ∧ f.is_blinking = true) ∨
      (g.gaze_on_bubble ∧ f.pupil_left_coords = none) then
    .ok { g with bubble_position := none, bubbles_left := g.bubbles_left - 1,
                 gaze_on_bubble := false }
  else
    match f.pupil_left_coords, f.pupil_right_coords with
    | some pl, some pr =>
      (match get_gaze_position g.tracker ((pl.1 + pr.1) / 2) ((pl.2 + pr.2) / 2) with
       | .error e => .error e
       | .ok (t, gaze_x, gaze_y, _) =>
         .ok { g with tracker := t, bubble_position := some bubble_position,
                      gaze_on_bubble :=
                        decide ((gaze_x - bubble_position.1) ^ 2 +
                          (gaze_y - bubble_position.2) ^ 2 ≤ 50 ^ 2) })
    | _, _ => .ok { g with bubble_position := some bubble_position }

/-- The fixed `self.num_bubbles = 5` of `GazeTracker.__init__`
(src/main.py line 45): the number of calibration targets per screen edge. -/
def num_bubbles : ℕ := 5

/-- The calibration target list built in `GazeTracker.__init__`
(src/main.py lines 50-54).  Each loop iteration appends one target on the
top edge, one on the left edge, one on the right edge and one on the bottom
edge, in that order, so the list interleaves the four edges. -/
def init_bubbles (W H : ℕ) : List (ℕ × ℕ) :=
  (List.range num_bubbles).flatMap fun i =>
    [((W / (num_bubbles + 1)) * (i + 1), 0),
     (0, (H / (num_bubbles + 1)) * (i + 1)),
     (W, (H / (num_bubbles + 1)) * (i + 1)),
     ((W / (num_bubbles + 1)) * (i + 1), H)]

/-- The four calibration fields in the order the keys of
`self.calibration_data = {"top": 0, "left": 0, "right": 0, "bottom": 0}`
are listed by `list(self.calibration_data.keys())` (src/main.py lines 70
and 81). -/
inductive CalibEdge where
  | top
  | left
  | right
  | bottom
  deriving DecidableEq, Repr

/-- `calibration_location` of `run_calibration` (src/main.py line 81). -/
def calibration_location : List CalibEdge := [.top, .left, .right, .bottom]

/-- The calibration field a successful sample at target index
`current_bubble_index` is accumulated into:
`calibration_location[current_bubble_index // self.num_bubbles]`
(src/main.py line 113). -/
def assigned_field (current_bubble_index : ℕ) : Option CalibEdge :=
  calibration_location.get? (current_bubble_index / num_bubbles)

/-- The accumulation a successful sample performs in `run_calibration`
(src/main.py lines 119-124): the averaged vertical pupil coordinate is
added, divided by `num_bubbles`, when the assigned field is top or bottom,
and the averaged horizontal pupil coordinate when it is left or right. -/
def run_calibration_sample (c : CalibrationData) (current_bubble_index : ℕ)
    (pupil_left pupil_right : ℚ × ℚ) : CalibrationData :=
  match assigned_field current_bubble_index with
  | some .top =>
      { c with top := c.top + ((pupil_left.2 + pupil_right.2) / 2) / (num_bubbles : ℚ) }
  | some .bottom =>
      { c with bottom := c.bottom + ((pupil_left.2 + pupil_right.2) / 2) / (num_bubbles : ℚ) }
  | some .left =>
      { c with left := c.left + ((pupil_left.1 + pupil_right.1) / 2) / (num_bubbles : ℚ) }
  | some .right =>
      { c with right := c.right + ((pupil_left.1 + pupil_right.1) / 2) / (num_bubbles : ℚ) }
  | none => c

/-- Follows the specification's words, for comparison with `assigned_field`:
the screen edge on which a calibration target lies, for a screen of size
`W × H` — `y = 0` is the top edge, `x = 0` the left edge, `x = W` the right
edge and `y = H` the bottom edge. -/
def spec_edge_of_target (W H : ℕ) (p : ℕ × ℕ) : Option CalibEdge :=
  if p.2 = 0 then some .top
  else if p.1 = 0 then some .left
  else if p.1 = W then some .right
  else if p.2 = H then some .bottom
  else none

/-- The worked calibration of the specification's test vector:
`{top: 0, left: 100, right: 0, bottom: 100}`. -/
def cal_demo : CalibrationData := { top := 0, left := 100, right := 0, bottom := 100 }

/-- A fresh tracker over `cal_demo` with the default `max_positions = 3`,
an empty history and a 1000 × 1000 screen. -/
def tracker_demo : TrackerState :=
  { calibration_data := cal_demo, max_positions := 3, last_positions := [],
    SCREEN_WIDTH := 1000, SCREEN_HEIGHT := 1000 }

/-- A tracker whose calibration is degenerate on both axes: the all-zero
store `GazeTracker.__init__` starts from (src/main.py line 70). -/
def tracker_degen : TrackerState :=
  { calibration_data := { top := 0, left := 0, right := 0, bottom := 0 },
    max_positions := 3, last_positions := [],
    SCREEN_WIDTH := 1000, SCREEN_HEIGHT := 1000 }

/-- A bubble-game state with five bubbles left, an active bubble and the
gaze flag set from the previous frame. -/
def game_demo : BubbleGameState :=
  { tracker := tracker_demo, bubbles_left := 5, bubble_position := some (100, 100),
    gaze_on_bubble := true }

/-- A frame reporting an active blink with both pupils detected. -/
def frame_blink : FrameInput :=
  { is_blinking := true, pupil_left_coords := some (40, 40),
    pupil_right_coords := some (60, 60), rand_bubble := (200, 200) }

/-- A frame with no blink, the left pupil lost and the right pupil still
detected: pupil detection is not totally lost. -/
def frame_left_lost : FrameInput :=
  { is_blinking := false, pupil_left_coords := none,
    pupil_right_coords := some (60, 60), rand_bubble := (200, 200) }

example :
    get_gaze_position tracker_demo 50 50 =
    .ok ({ tracker_demo with last_positions := [(500, 500)] },
         500 / 3, 500 / 3, (1 / 2, 1 / 2)) := by
  norm_num [get_gaze_position, updated_positions, mapped_point, normalized_horizontal,
    normalized_vertical, pySliceLast, tracker_demo, cal_demo]

example :
    smooth_calibration cal_demo =
    { top := 49, left := 51.5, right := 48.5, bottom := 51 } := by
  norm_num [smooth_calibration, cal_demo]

/-! ## Helper lemmas -/

/-- `smooth_calibration` is idempotent: both midpoints survive one
application, so a second application recomputes the same four values. -/
theorem smooth_calibration_idem (c : CalibrationData) :
    smooth_calibration (smooth_calibration c) = smooth_calibration c := by
  ext <;> simp only [smooth_calibration] <;> ring

/-- For a positive capacity, the Python slice `l[-k:]` keeps at most `k`
elements. -/
theorem pySliceLast_length_le (l : List α) (k : ℕ) (hk : k ≠ 0) :
    (pySliceLast l k).length ≤ k := by
  simp only [pySliceLast, if_neg hk, List.length_drop]
  omega

/-- For a positive capacity, the Python slice `l[-k:]` of a list ending in
`a` still ends in `a`. -/
theorem pySliceLast_getLast? (l : List α) (a : α) (k : ℕ) (hk : k ≠ 0) :
    (pySliceLast (l ++ [a]) k).getLast? = some a := by
  simp only [pySliceLast, if_neg hk, List.length_append, List.length_singleton]
  rw [List.drop_append_of_le_length (by omega)]
  simp

/-- Inversion of `get_gaze_position`: a successful call means no division
denominator was zero, and pins down the returned state and values. -/
theorem get_gaze_position_ok_inv (s : TrackerState) (horizontal_ratio vertical_ratio : ℚ)
    (out : TrackerState × ℚ × ℚ × (ℚ × ℚ))
    (hok : get_gaze_position s horizontal_ratio vertical_ratio = .ok out) :
    s.calibration_data.left - s.calibration_data.right ≠ 0 ∧
    s.calibration_data.bottom - s.calibration_data.top ≠ 0 ∧
    s.max_positions ≠ 0 ∧
    out = ({ s with last_positions := updated_positions s horizontal_ratio vertical_ratio },
           (updated_positions s horizontal_ratio vertical_ratio).foldl
             (fun acc p => acc + p.1) 0 / (s.max_positions : ℚ),
           (updated_positions s horizontal_ratio vertical_ratio).foldl
             (fun acc p => acc + p.2) 0 / (s.max_positions : ℚ),
           (normalized_horizontal s.calibration_data horizontal_ratio,
            normalized_vertical s.calibration_data vertical_ratio)) := by
  unfold get_gaze_position at hok
  split_ifs at hok with h1 h2 h3
  exact ⟨h1, h2, h3, (Except.ok.inj hok).symm⟩

/-- The clamped-then-normalized horizontal coordinate lies in `[0, 1]`
whenever the calibration satisfies `right < left`. -/
theorem normalized_horizontal_bounds (c : CalibrationData) (x : ℚ)
    (hlr : c.right < c.left) :
    0 ≤ normalized_horizontal c x ∧ normalized_horizontal c x ≤ 1 := by
  unfold normalized_horizontal
  have hspan : 0 < c.left - c.right := by linarith
  have h1 : c.right ≤ max c.right (min x c.left) := le_max_left _ _
  have h2 : max c.right (min x c.left) ≤ c.left :=
    max_le (le_of_lt hlr) (min_le_right _ _)
  have hq0 : 0 ≤ (max c.right (min x c.left) - c.right) / (c.left - c.right) :=
    div_nonneg (by linarith) (le_of_lt hspan)
  have hq1 : (max c.right (min x c.left) - c.right) / (c.left - c.right) ≤ 1 := by
    rw [div_le_one hspan]; linarith
  constructor <;> linarith

/-- The clamped-then-normalized vertical coordinate lies in `[0, 1]`
whenever the calibration satisfies `top < bottom`. -/
theorem normalized_vertical_bounds (c : CalibrationData) (x : ℚ)
    (htb : c.top < c.bottom) :
    0 ≤ normalized_vertical c x ∧ normalized_vertical c x ≤ 1 := by
  unfold normalized_vertical
  have hspan : 0 < c.bottom - c.top := by linarith
  have h1 : c.top ≤ max c.top (min x c.bottom) := le_max_left _ _
  have h2 : max c.top (min x c.bottom) ≤ c.bottom :=
    max_le (le_of_lt htb) (min_le_right _ _)
  have hq0 : 0 ≤ (max c.top (min x c.bottom) - c.top) / (c.bottom - c.top) :=
    div_nonneg (by linarith) (le_of_lt hspan)
  have hq1 : (max c.top (min x c.bottom) - c.top) / (c.bottom - c.top) ≤ 1 := by
    rw [div_le_one hspan]; linarith
  exact ⟨hq0, hq1⟩

/-! ## Claims about the calibration smoother -/

/-- C6: `smooth_calibration` sets top and bottom to the vertical midpoint
minus and plus (vertical midpoint × 0.020), and right and left to the
horizontal midpoint minus and plus a delta computed from the VERTICAL
midpoint (vertical midpoint × 0.030), not from the horizontal midpoint. -/
theorem smooth_calibration_formula (c : CalibrationData) :
    (smooth_calibration c).top =
      (c.top + c.bottom) / 2 - ((c.top + c.bottom) / 2) * 0.020 ∧
    (smooth_calibration c).bottom =
      (c.top + c.bottom) / 2 + ((c.top + c.bottom) / 2) * 0.020 ∧
    (smooth_calibration c).right =
      (c.left + c.right) / 2 - ((c.top + c.bottom) / 2) * 0.030 ∧
    (smooth_calibration c).left =
      (c.left + c.right) / 2 + ((c.top + c.bottom) / 2) * 0.030 :=
  ⟨rfl, rfl, rfl, rfl⟩

/-- C5 counterexample: on the calibration `{top: 0, left: 100, right: 0,
bottom: 100}` the first application of `smooth_calibration` does change the
fields, but a second application changes nothing at all — refuting the
claim that with the nonzero factors 0.020 and 0.030 a repeated application
strictly changes top, bottom, left and right. -/
theorem smooth_calibration_second_application_cex :
    smooth_calibration (smooth_calibration cal_demo) = smooth_calibration cal_demo ∧
    (smooth_calibration (smooth_calibration cal_demo)).top =
      (smooth_calibration cal_demo).top ∧
    (smooth_calibration cal_demo).top ≠ cal_demo.top := by
  refine ⟨?_, ?_, ?_⟩
  · ext <;> simp only [smooth_calibration] <;> ring
  · simp only [smooth_calibration]; ring
  · norm_num [smooth_calibration, cal_demo]

/-- C5 amended: despite the nonzero expansion factors 0.020 and 0.030, a
second application of `smooth_calibration` changes none of the four fields:
the smoother preserves both midpoints, so it is idempotent. -/
theorem smooth_calibration_second_application_changes_nothing (c : CalibrationData) :
    (smooth_calibration (smooth_calibration c)).top = (smooth_calibration c).top ∧
    (smooth_calibration (smooth_calibration c)).bottom = (smooth_calibration c).bottom ∧
    (smooth_calibration (smooth_calibration c)).left = (smooth_calibration c).left ∧
    (smooth_calibration (smooth_calibration c)).right = (smooth_calibration c).right := by
  rw [smooth_calibration_idem]
  exact ⟨rfl, rfl, rfl, rfl⟩

/-- C10: `smooth_calibration` preserves the vertical midpoint
`(top + bottom) / 2` and the horizontal midpoint `(left + right) / 2`, and
consequently applying it twice yields exactly the same `CalibrationData` as
applying it once. -/
theorem smooth_calibration_preserves_midpoints (c : CalibrationData) :
    ((smooth_calibration c).top + (smooth_calibration c).bottom) / 2 =
      (c.top + c.bottom) / 2 ∧
    ((smooth_calibration c).left + (smooth_calibration c).right) / 2 =
      (c.left + c.right) / 2 ∧
    smooth_calibration (smooth_calibration c) = smooth_calibration c := by
  refine ⟨?_, ?_, smooth_calibration_idem c⟩ <;>
    simp only [smooth_calibration] <;> ring

/-! ## Claims about the position mapper -/

/-- C1: every successful call to `get_gaze_position` returns as smoothed
point the component-wise sums of the entries held in the updated position
history, divided by the configured capacity `max_positions` — not by the
current entry count. -/
theorem gaze_smoothing_divides_by_capacity (s : TrackerState)
    (horizontal_ratio vertical_ratio : ℚ) (s' : TrackerState) (x_avg y_avg : ℚ)
    (np : ℚ × ℚ)
    (hok : get_gaze_position s horizontal_ratio vertical_ratio =
      .ok (s', x_avg, y_avg, np)) :
    x_avg = s'.last_positions.foldl (fun acc p => acc + p.1) 0 / (s.max_positions : ℚ) ∧
    y_avg = s'.last_positions.foldl (fun acc p => acc + p.2) 0 / (s.max_positions : ℚ) := by
  obtain ⟨-, -, -, hout⟩ := get_gaze_position_ok_inv _ _ _ _ hok
  simp only [Prod.mk.injEq] at hout
  obtain ⟨rfl, rfl, rfl, -⟩ := hout
  exact ⟨rfl, rfl⟩

/-- Witness for C1: with capacity 3, an empty history and the sample
`(50, 50)` over `cal_demo`, the mapped point is `(500, 500)` but the call
returns `500 / 3` on each axis — the mapped point divided by the configured
capacity 3, not the mapped point itself. -/
theorem gaze_smoothing_divides_by_capacity_witness :
    get_gaze_position tracker_demo 50 50 =
      .ok ({ tracker_demo with last_positions := [(500, 500)] },
           500 / 3, 500 / 3, (1 / 2, 1 / 2)) ∧
    ((500 : ℚ) / 3 =
        ({ tracker_demo with last_positions := [(500, 500)] } :
          TrackerState).last_positions.foldl (fun acc p => acc + p.1) 0 /
          (tracker_demo.max_positions : ℚ) ∧
     (500 : ℚ) / 3 =
        ({ tracker_demo with last_positions := [(500, 500)] } :
          TrackerState).last_positions.foldl (fun acc p => acc + p.2) 0 /
          (tracker_demo.max_positions : ℚ)) ∧
    (500 : ℚ) / 3 ≠ 500 := by
  have hok : get_gaze_position tracker_demo 50 50 =
      .ok ({ tracker_demo with last_positions := [(500, 500)] },
           500 / 3, 500 / 3, (1 / 2, 1 / 2)) := by
    norm_num [get_gaze_position, updated_positions, mapped_point, normalized_horizontal,
      normalized_vertical, pySliceLast, tracker_demo, cal_demo]
  exact ⟨hok, gaze_smoothing_divides_by_capacity _ _ _ _ _ _ _ hok, by norm_num⟩

/-- C2: every successful call to `get_gaze_position` returns
`normalized_horizontal = 1 − (clamped − right) / (left − right)` and
`normalized_vertical = (clamped − top) / (bottom − top)` where the raw
inputs are first clamped into `[right, left]` and `[top, bottom]`, and the
point appended to the history is that pair scaled by the screen width and
height. -/
theorem gaze_normalization_formula (s : TrackerState)
    (horizontal_ratio vertical_ratio : ℚ) (s' : TrackerState) (x_avg y_avg nh nv : ℚ)
    (hok : get_gaze_position s horizontal_ratio vertical_ratio =
      .ok (s', x_avg, y_avg, (nh, nv))) :
    nh = 1 - (max s.calibration_data.right (min horizontal_ratio s.calibration_data.left) -
        s.calibration_data.right) / (s.calibration_data.left - s.calibration_data.right) ∧
    nv = (max s.calibration_data.top (min vertical_ratio s.calibration_data.bottom) -
        s.calibration_data.top) / (s.calibration_data.bottom - s.calibration_data.top) ∧
    s'.last_positions.getLast? = some (nh * s.SCREEN_WIDTH, nv * s.SCREEN_HEIGHT) := by
  obtain ⟨-, -, hK, hout⟩ := get_gaze_position_ok_inv _ _ _ _ hok
  simp only [Prod.mk.injEq] at hout
  obtain ⟨rfl, rfl, rfl, rfl, rfl⟩ := hout
  refine ⟨rfl, rfl, ?_⟩
  exact pySliceLast_getLast? _ _ _ hK

/-- Witness for C2: for calibration `{top: 0, left: 100, right: 0,
bottom: 100}` and raw sample `(50, 50)` the returned normalized pair is
`(0.5, 0.5)` and the mapped point `(500, 500)` on the 1000 × 1000 screen. -/
theorem gaze_normalization_formula_witness :
    get_gaze_position tracker_demo 50 50 =
      .ok ({ tracker_demo with last_positions := [(500, 500)] },
           500 / 3, 500 / 3, (1 / 2, 1 / 2)) ∧
    ((1 : ℚ) / 2 = 1 - (max tracker_demo.calibration_data.right
          (min 50 tracker_demo.calibration_data.left) -
          tracker_demo.calibration_data.right) /
          (tracker_demo.calibration_data.left - tracker_demo.calibration_data.right) ∧
     (1 : ℚ) / 2 = (max tracker_demo.calibration_data.top
          (min 50 tracker_demo.calibration_data.bottom) -
          tracker_demo.calibration_data.top) /
          (tracker_demo.calibration_data.bottom - tracker_demo.calibration_data.top) ∧
     ({ tracker_demo with last_positions := [(500, 500)] } :
        TrackerState).last_positions.getLast? =
       some (1 / 2 * tracker_demo.SCREEN_WIDTH, 1 / 2 * tracker_demo.SCREEN_HEIGHT)) := by
  have hok : get_gaze_position tracker_demo 50 50 =
      .ok ({ tracker_demo with last_positions := [(500, 500)] },
           500 / 3, 500 / 3, (1 / 2, 1 / 2)) := by
    norm_num [get_gaze_position, updated_positions, mapped_point, normalized_horizontal,
      normalized_vertical, pySliceLast, tracker_demo, cal_demo]
  exact ⟨hok, gaze_normalization_formula _ _ _ _ _ _ _ _ hok⟩

/-- C3: for every raw input pair, of any magnitude, and every calibration
with `right < left` and `top < bottom`, the normalized pair returned by a
successful `get_gaze_position` call lies in `[0, 1] × [0, 1]`. -/
theorem gaze_normalized_in_unit_square (s : TrackerState)
    (horizontal_ratio vertical_ratio : ℚ) (s' : TrackerState) (x_avg y_avg nh nv : ℚ)
    (hlr : s.calibration_data.right < s.calibration_data.left)
    (htb : s.calibration_data.top < s.calibration_data.bottom)
    (hok : get_gaze_position s horizontal_ratio vertical_ratio =
      .ok (s', x_avg, y_avg, (nh, nv))) :
    0 ≤ nh ∧ nh ≤ 1 ∧ 0 ≤ nv ∧ nv ≤ 1 := by
  obtain ⟨-, -, -, hout⟩ := get_gaze_position_ok_inv _ _ _ _ hok
  simp only [Prod.mk.injEq] at hout
  obtain ⟨-, -, -, rfl, rfl⟩ := hout
  obtain ⟨hh0, hh1⟩ := normalized_horizontal_bounds s.calibration_data horizontal_ratio hlr
  obtain ⟨hv0, hv1⟩ := normalized_vertical_bounds s.calibration_data vertical_ratio htb
  exact ⟨hh0, hh1, hv0, hv1⟩

/-- Witness for C3: a raw sample far outside the calibrated bounds,
`(1000000, -1000000)`, still yields a normalized pair inside the unit
square (here `(0, 0)` after clamping). -/
theorem gaze_normalized_in_unit_square_witness :
    (tracker_demo.calibration_data.right < tracker_demo.calibration_data.left ∧
     tracker_demo.calibration_data.top < tracker_demo.calibration_data.bottom ∧
     get_gaze_position tracker_demo 1000000 (-1000000) =
       .ok ({ tracker_demo with last_positions := [(0, 0)] }, 0, 0, (0, 0))) ∧
    ((0 : ℚ) ≤ 0 ∧ (0 : ℚ) ≤ 1 ∧ (0 : ℚ) ≤ 0 ∧ (0 : ℚ) ≤ 1) := by
  have hlr : tracker_demo.calibration_data.right < tracker_demo.calibration_data.left := by
    norm_num [tracker_demo, cal_demo]
  have htb : tracker_demo.calibration_data.top < tracker_demo.calibration_data.bottom := by
    norm_num [tracker_demo, cal_demo]
  have hok : get_gaze_position tracker_demo 1000000 (-1000000) =
      .ok ({ tracker_demo with last_positions := [(0, 0)] }, 0, 0, (0, 0)) := by
    norm_num [get_gaze_position, updated_positions, mapped_point, normalized_horizontal,
      normalized_vertical, pySliceLast, tracker_demo, cal_demo]
  exact ⟨⟨hlr, htb, hok⟩,
    gaze_normalized_in_unit_square _ _ _ _ _ _ _ _ hlr htb hok⟩

/-- C4 counterexample: on the degenerate all-zero calibration the call
fails with the generic `zeroDivision` error (Python's `ZeroDivisionError`),
not with a dedicated `degenerateCalibration` condition — the code performs
the division unguarded and has no explicit degenerate-calibration check. -/
theorem gaze_degenerate_no_explicit_error_cex :
    get_gaze_position tracker_degen 5 7 = .error .zeroDivision ∧
    get_gaze_position tracker_degen 5 7 ≠ .error .degenerateCalibration := by
  have h : get_gaze_position tracker_degen 5 7 = .error .zeroDivision := by
    norm_num [get_gaze_position, tracker_degen]
  refine ⟨h, ?_⟩
  rw [h]
  simp

/-- C4 amended: when the calibration is degenerate on an axis
(`left = right` or `bottom = top`), `get_gaze_position` fails at first use
with Python's `ZeroDivisionError` — no infinite or NaN coordinate is
produced — but it is the generic division-by-zero error, not an explicit
`DegenerateCalibration` condition. -/
theorem gaze_degenerate_raises_zero_division (s : TrackerState)
    (horizontal_ratio vertical_ratio : ℚ)
    (hdeg : s.calibration_data.left = s.calibration_data.right ∨
            s.calibration_data.bottom = s.calibration_data.top) :
    get_gaze_position s horizontal_ratio vertical_ratio = .error .zeroDivision := by
  unfold get_gaze_position
  rcases hdeg with hd | hd
  · rw [if_pos (by rw [hd, sub_self])]
  · by_cases h1 : s.calibration_data.left - s.calibration_data.right = 0
    · rw [if_pos h1]
    · rw [if_neg h1, if_pos (by rw [hd, sub_self])]

/-- Witness for C4 (amended): the all-zero calibration is degenerate and the
call on it fails with `zeroDivision`. -/
theorem gaze_degenerate_raises_zero_division_witness :
    (tracker_degen.calibration_data.left = tracker_degen.calibration_data.right ∨
     tracker_degen.calibration_data.bottom = tracker_degen.calibration_data.top) ∧
    get_gaze_position tracker_degen 5 7 = .error .zeroDivision :=
  ⟨Or.inl rfl, gaze_degenerate_raises_zero_division tracker_degen 5 7 (Or.inl rfl)⟩

/-- C9: a successful `get_gaze_position` call keeps the history bounded by
the capacity: if the history held at most `max_positions ≥ 1` entries
before, afterwards it holds at most `max_positions` entries, ends in the
newly mapped point, and equals the last `max_positions` elements of the old
history with the new point appended. -/
theorem position_history_bounded (s : TrackerState)
    (horizontal_ratio vertical_ratio : ℚ) (s' : TrackerState) (x_avg y_avg nh nv : ℚ)
    (hcap : 1 ≤ s.max_positions)
    (hbefore : s.last_positions.length ≤ s.max_positions)
    (hok : get_gaze_position s horizontal_ratio vertical_ratio =
      .ok (s', x_avg, y_avg, (nh, nv))) :
    s'.last_positions.length ≤ s.max_positions ∧
    s'.last_positions.getLast? = some (nh * s.SCREEN_WIDTH, nv * s.SCREEN_HEIGHT) ∧
    s'.last_positions =
      (s.last_positions ++ [(nh * s.SCREEN_WIDTH, nv * s.SCREEN_HEIGHT)]).drop
        (s.last_positions.length + 1 - s.max_positions) := by
  obtain ⟨-, -, hK, hout⟩ := get_gaze_position_ok_inv _ _ _ _ hok
  simp only [Prod.mk.injEq] at hout
  obtain ⟨rfl, rfl, rfl, rfl, rfl⟩ := hout
  refine ⟨pySliceLast_length_le _ _ hK, pySliceLast_getLast? _ _ _ hK, ?_⟩
  show pySliceLast _ _ = _
  rw [pySliceLast, if_neg hK]
  simp [mapped_point]

/-- Witness for C9: capacity 3, an empty history, one call — afterwards the
history is exactly the one mapped point. -/
theorem position_history_bounded_witness :
    (1 ≤ tracker_demo.max_positions ∧
     tracker_demo.last_positions.length ≤ tracker_demo.max_positions ∧
     get_gaze_position tracker_demo 50 50 =
       .ok ({ tracker_demo with last_positions := [(500, 500)] },
            500 / 3, 500 / 3, (1 / 2, 1 / 2))) ∧
    (({ tracker_demo with last_positions := [(500, 500)] } :
        TrackerState).last_positions.length ≤ tracker_demo.max_positions ∧
     ({ tracker_demo with last_positions := [(500, 500)] } :
        TrackerState).last_positions.getLast? =
       some (1 / 2 * tracker_demo.SCREEN_WIDTH, 1 / 2 * tracker_demo.SCREEN_HEIGHT) ∧
     ({ tracker_demo with last_positions := [(500, 500)] } :
        TrackerState).last_positions =
       (tracker_demo.last_positions ++
         [(1 / 2 * tracker_demo.SCREEN_WIDTH, 1 / 2 * tracker_demo.SCREEN_HEIGHT)]).drop
         (tracker_demo.last_positions.length + 1 - tracker_demo.max_positions)) := by
  have hcap : 1 ≤ tracker_demo.max_positions := by norm_num [tracker_demo]
  have hbefore : tracker_demo.last_positions.length ≤ tracker_demo.max_positions := by
    norm_num [tracker_demo]
  have hok : get_gaze_position tracker_demo 50 50 =
      .ok ({ tracker_demo with last_positions := [(500, 500)] },
           500 / 3, 500 / 3, (1 / 2, 1 / 2)) := by
    norm_num [get_gaze_position, updated_positions, mapped_point, normalized_horizontal,
      normalized_vertical, pySliceLast, tracker_demo, cal_demo]
  exact ⟨⟨hcap, hbefore, hok⟩,
    position_history_bounded _ _ _ _ _ _ _ _ hcap hbefore hok⟩

/-! ## Claims about the bubble game and the calibration procedure -/

/-- C7 counterexample: with `gaze_on_bubble` true from the previous frame,
no blink reported and only the LEFT pupil lost (the right pupil is still
detected, so pupil detection is not totally lost), the loop still registers
a hit and decrements the counter from 5 to 4 — refuting the claim that a
hit requires an active blink or total loss of pupil detection. -/
theorem bubble_hit_without_blink_or_total_loss_cex :
    spawn_random_bubbles_step game_demo frame_left_lost =
      .ok { game_demo with bubble_position := none, bubbles_left := 4,
                            gaze_on_bubble := false } ∧
    frame_left_lost.is_blinking = false ∧
    frame_left_lost.pupil_right_coords = some (60, 60) := by
  refine ⟨?_, rfl, rfl⟩
  unfold spawn_random_bubbles_step
  rw [if_pos (Or.inr ⟨rfl, rfl⟩)]
  rfl

/-- C7 amended: in the bubble-game loop a hit is registered on a frame if
and only if `gaze_on_bubble` was true on the previous frame and the current
frame reports an active blink or loss of the LEFT pupil (the code tests
`pupil_left_coords() is None` only, not total loss of both pupils); a blink
while `gaze_on_bubble` was false registers no hit, and a qualifying frame
registers exactly one hit: it decrements the remaining-bubble counter by
one, clears the bubble and resets `gaze_on_bubble` to false. -/
theorem bubble_hit_iff_gaze_then_blink_or_left_lost (g : BubbleGameState)
    (f : FrameInput) (hpos : 0 < g.bubbles_left) :
    ((∃ g', spawn_random_bubbles_step g f = .ok g' ∧
        g'.bubbles_left < g.bubbles_left) ↔
      (g.gaze_on_bubble = true ∧
        (f.is_blinking = true ∨ f.pupil_left_coords = none))) ∧
    ((g.gaze_on_bubble = true ∧
        (f.is_blinking = true ∨ f.pupil_left_coords = none)) →
      spawn_random_bubbles_step g f =
        .ok { g with bubble_position := none, bubbles_left := g.bubbles_left - 1,
                     gaze_on_bubble := false }) := by
  by_cases hc : g.gaze_on_bubble = true ∧
      (f.is_blinking = true ∨ f.pupil_left_coords = none)
  · have hstep : spawn_random_bubbles_step g f =
        .ok { g with bubble_position := none, bubbles_left := g.bubbles_left - 1,
                     gaze_on_bubble := false } := by
      unfold spawn_random_bubbles_step
      rw [if_pos (by tauto)]
    exact ⟨⟨fun _ => hc,
      fun _ => ⟨_, hstep, Nat.sub_lt hpos one_pos⟩⟩, fun _ => hstep⟩
  · refine ⟨⟨?_, fun h => absurd h hc⟩, fun h => absurd h hc⟩
    rintro ⟨g', hg', hlt⟩
    exfalso
    unfold spawn_random_bubbles_step at hg'
    rw [if_neg (by tauto)] at hg'
    split at hg'
    · split at hg'
      · exact Except.noConfusion hg'
      · cases Except.ok.inj hg'
        exact absurd hlt (lt_irrefl _)
    · cases Except.ok.inj hg'
      exact absurd hlt (lt_irrefl _)

/-- Witness for C7 (amended): five bubbles left, the gaze was on the bubble
and a blink arrives with both pupils detected — the step registers the hit,
clears the bubble, decrements the counter and resets the flag. -/
theorem bubble_hit_iff_gaze_then_blink_or_left_lost_witness :
    spawn_random_bubbles_step game_demo frame_blink =
      .ok { game_demo with bubble_position := none,
                            bubbles_left := game_demo.bubbles_left - 1,
                            gaze_on_bubble := false } :=
  (bubble_hit_iff_gaze_then_blink_or_left_lost game_demo frame_blink
    (by norm_num [game_demo])).2 ⟨rfl, Or.inl rfl⟩

/-- C8: on a 600 × 600 screen, the calibration target at index 1 is the
point `(0, 100)`, which lies on the LEFT screen edge; yet the procedure
assigns it the field `calibration_location[1 // 5] = top` and accumulates
the averaged VERTICAL pupil coordinate into `top`, leaving `left`
untouched.  The target list interleaves the edges (top, left, right,
bottom, top, ...) while `current_bubble_index // num_bubbles` assumes
blocks of five consecutive targets per edge, so the field a sample feeds
does not correspond to the edge its target lies on. -/
theorem calibration_target_edge_mismatch :
    (init_bubbles 600 600).get? 1 = some (0, 100) ∧
    spec_edge_of_target 600 600 (0, 100) = some .left ∧
    assigned_field 1 = some .top ∧
    run_calibration_sample { top := 0, left := 0, right := 0, bottom := 0 } 1
        (7, 11) (9, 13) =
      { top := 12 / 5, left := 0, right := 0, bottom := 0 } := by
  refine ⟨by decide, by decide, by decide, ?_⟩
  norm_num [run_calibration_sample, assigned_field, calibration_location, num_bubbles]
